import Mathlib

/-
Verification of the message model of openexecution (src/src/types.rs).

The Rust code is shallowly embedded: each serde-derived struct becomes a Lean
structure with the same field names in the same order, and the behaviour of
serde_json::to_string on those structs (field order = declaration order, Option
rendered as null, tuples as arrays, unit enum variants as their name string,
u64 as decimal) is embedded as explicit serializers.  serde_json::to_string is
infallible on these types (no maps, no custom Serialize impls), so the Ok
branch of the Rust Result is modelled as a total String-valued function.
Rust u64 identifiers are modelled as Nat (the claims involve no arithmetic
that could overflow).
-/

namespace OpenExecution

/-- JSON values, used to model what serde_json deserializes from.  Numbers are
modelled as integers, which is enough for the messages at hand. -/
inductive Json where
  | null
  | bool (b : Bool)
  | num (n : Int)
  | str (s : String)
  | arr (elems : List Json)
  | obj (fields : List (String × Json))

/-- Hexadecimal digit character, lowercase, as serde_json uses in escapes. -/
def hexDigitChar (n : Nat) : Char :=
  if n < 10 then Char.ofNat (48 + n) else Char.ofNat (87 + n)

/-- Escaping of a single character in a JSON string, following serde_json:
quote and backslash get a backslash escape, the control characters 8, 9, 10,
12, 13 get their short escapes, other control characters below 32 get a
lowercase \u00XX escape, and everything else is emitted as is. -/
def escapeChar (c : Char) : String :=
  if c = Char.ofNat 34 then "\\\""
  else if c = Char.ofNat 92 then "\\\\"
  else if c = Char.ofNat 8 then "\\b"
  else if c = Char.ofNat 9 then "\\t"
  else if c = Char.ofNat 10 then "\\n"
  else if c = Char.ofNat 12 then "\\f"
  else if c = Char.ofNat 13 then "\\r"
  else if c.toNat < 32 then
    "\\u00" ++ String.singleton (hexDigitChar (c.toNat / 16))
      ++ String.singleton (hexDigitChar (c.toNat % 16))
  else String.singleton c

/-- Escaping of a whole string, character by character. -/
def escapeString (s : String) : String :=
  String.join (s.toList.map escapeChar)

/-- Rendering of a JSON string literal: quotes around the escaped content. -/
def jstr (s : String) : String :=
  "\"" ++ escapeString s ++ "\""

/-- Opening brace of a JSON object. -/
def lbrace : String := String.singleton (Char.ofNat 123)

/-- Closing brace of a JSON object. -/
def rbrace : String := String.singleton (Char.ofNat 125)

/-- Rendering of a JSON object from already rendered field values, in the
given order, as serde_json renders a derived struct. -/
def jobj (fields : List (String × String)) : String :=
  lbrace ++ String.intercalate "," (fields.map (fun p => jstr p.1 ++ ":" ++ p.2)) ++ rbrace

/-- Rendering of a JSON array from already rendered elements. -/
def jarr (elems : List String) : String :=
  "[" ++ String.intercalate "," elems ++ "]"

/-- Rendering of an optional value: None becomes null, as serde renders an
Option field without skip attributes. -/
def jopt {α : Type} (f : α → String) : Option α → String
  | none => "null"
  | some x => f x

/-- Rendering of a u64, decimal digits. -/
def jnat (n : Nat) : String := Nat.repr n

/-! Message model, structures from src/src/types.rs with the same fields in
the same order. -/

/-- Struct WithdrawalV1: index, validatorIndex, address, amount, all plain
strings. -/
structure WithdrawalV1 where
  index : String
  validatorIndex : String
  address : String
  amount : String
deriving DecidableEq

/-- Struct ForkchoiceStateV1: the three block hash strings. -/
structure ForkchoiceStateV1 where
  headBlockHash : String
  safeBlockHash : String
  finalizedBlockHash : String
deriving DecidableEq

/-- Struct PayloadAttributesV2. -/
structure PayloadAttributesV2 where
  timestamp : String
  prevRandao : String
  suggestedFeeRecipient : String
  withdrawals : Option (List WithdrawalV1)
deriving DecidableEq

/-- Enum ExecutionStatus. -/
inductive ExecutionStatus where
  | VALID
  | INVALID
  | SYNCING
  | ACCEPTED
  | INVALID_BLOCK_HASH
deriving DecidableEq

/-- Struct TransitionConfigurationV1. -/
structure TransitionConfigurationV1 where
  terminalTotalDifficulty : String
  terminalBlockHash : String
  terminalBlockNumber : String
deriving DecidableEq

/-- Struct payloadStatusV1: status, optional latestValidHash, optional
ValidationError.  The field names keep the spelling of the source. -/
structure payloadStatusV1 where
  status : ExecutionStatus
  latestValidHash : Option String
  ValidationError : Option String
deriving DecidableEq

/-- Struct forkchoiceUpdatedV1ResponseResult. -/
structure forkchoiceUpdatedV1ResponseResult where
  payloadStatus : payloadStatusV1
  payloadId : Option String
deriving DecidableEq

/-- Struct forkchoiceUpdatedV1Response: a JSON-RPC reply envelope. -/
structure forkchoiceUpdatedV1Response where
  jsonrpc : String
  id : Nat
  result : forkchoiceUpdatedV1ResponseResult
  error : Option String
deriving DecidableEq

/-- Struct newPayloadV1Response: a JSON-RPC reply envelope whose result is a
payloadStatusV1. -/
structure newPayloadV1Response where
  jsonrpc : String
  id : Nat
  result : payloadStatusV1
  error : Option String
deriving DecidableEq

/-- Struct forkchoiceUpdatedV2: a JSON-RPC request whose params are the pair
of the forkchoice state and the optional payload attributes. -/
structure forkchoiceUpdatedV2 where
  jsonrpc : String
  id : Nat
  method : String
  params : ForkchoiceStateV1 × Option PayloadAttributesV2
deriving DecidableEq

/-- Struct exchangeTransitionConfigurationV1. -/
structure exchangeTransitionConfigurationV1 where
  jsonrpc : String
  id : Nat
  method : Option String
  params : Option (List TransitionConfigurationV1)
  result : Option TransitionConfigurationV1
deriving DecidableEq

/-! Serializers: the behaviour of serde_json::to_string on each type. -/

/-- Serialization of WithdrawalV1. -/
def serializeWithdrawalV1 (w : WithdrawalV1) : String :=
  jobj [("index", jstr w.index), ("validatorIndex", jstr w.validatorIndex),
        ("address", jstr w.address), ("amount", jstr w.amount)]

/-- Serialization of ForkchoiceStateV1. -/
def serializeForkchoiceStateV1 (s : ForkchoiceStateV1) : String :=
  jobj [("headBlockHash", jstr s.headBlockHash), ("safeBlockHash", jstr s.safeBlockHash),
        ("finalizedBlockHash", jstr s.finalizedBlockHash)]

/-- Serialization of PayloadAttributesV2. -/
def serializePayloadAttributesV2 (a : PayloadAttributesV2) : String :=
  jobj [("timestamp", jstr a.timestamp), ("prevRandao", jstr a.prevRandao),
        ("suggestedFeeRecipient", jstr a.suggestedFeeRecipient),
        ("withdrawals", jopt (fun l => jarr (l.map serializeWithdrawalV1)) a.withdrawals)]

/-- Name of an ExecutionStatus variant, as serde renders and matches it. -/
def statusName : ExecutionStatus → String
  | ExecutionStatus.VALID => "VALID"
  | ExecutionStatus.INVALID => "INVALID"
  | ExecutionStatus.SYNCING => "SYNCING"
  | ExecutionStatus.ACCEPTED => "ACCEPTED"
  | ExecutionStatus.INVALID_BLOCK_HASH => "INVALID_BLOCK_HASH"

/-- Serialization of ExecutionStatus: a unit enum variant renders as its name
string. -/
def serializeExecutionStatus (s : ExecutionStatus) : String :=
  jstr (statusName s)

/-- Serialization of TransitionConfigurationV1. -/
def serializeTransitionConfigurationV1 (t : TransitionConfigurationV1) : String :=
  jobj [("terminalTotalDifficulty", jstr t.terminalTotalDifficulty),
        ("terminalBlockHash", jstr t.terminalBlockHash),
        ("terminalBlockNumber", jstr t.terminalBlockNumber)]

/-- Serialization of payloadStatusV1. -/
def serializePayloadStatusV1 (p : payloadStatusV1) : String :=
  jobj [("status", serializeExecutionStatus p.status),
        ("latestValidHash", jopt jstr p.latestValidHash),
        ("ValidationError", jopt jstr p.ValidationError)]

/-- Serialization of forkchoiceUpdatedV1ResponseResult. -/
def serializeForkchoiceUpdatedV1ResponseResult (r : forkchoiceUpdatedV1ResponseResult) : String :=
  jobj [("payloadStatus", serializePayloadStatusV1 r.payloadStatus),
        ("payloadId", jopt jstr r.payloadId)]

/-- Serialization of forkchoiceUpdatedV1Response. -/
def serializeForkchoiceUpdatedV1Response (r : forkchoiceUpdatedV1Response) : String :=
  jobj [("jsonrpc", jstr r.jsonrpc), ("id", jnat r.id),
        ("result", serializeForkchoiceUpdatedV1ResponseResult r.result),
        ("error", jopt jstr r.error)]

/-- Serialization of newPayloadV1Response. -/
def serializeNewPayloadV1Response (r : newPayloadV1Response) : String :=
  jobj [("jsonrpc", jstr r.jsonrpc), ("id", jnat r.id),
        ("result", serializePayloadStatusV1 r.result),
        ("error", jopt jstr r.error)]

/-- Serialization of forkchoiceUpdatedV2: the params tuple renders as a two
element array, a missing PayloadAttributesV2 as null. -/
def serializeForkchoiceUpdatedV2 (m : forkchoiceUpdatedV2) : String :=
  jobj [("jsonrpc", jstr m.jsonrpc), ("id", jnat m.id), ("method", jstr m.method),
        ("params", jarr [serializeForkchoiceStateV1 m.params.1,
                         jopt serializePayloadAttributesV2 m.params.2])]

/-- Serialization of exchangeTransitionConfigurationV1. -/
def serializeExchangeTransitionConfigurationV1 (m : exchangeTransitionConfigurationV1) : String :=
  jobj [("jsonrpc", jstr m.jsonrpc), ("id", jnat m.id), ("method", jopt jstr m.method),
        ("params", jopt (fun l => jarr (l.map serializeTransitionConfigurationV1)) m.params),
        ("result", jopt serializeTransitionConfigurationV1 m.result)]

/-! The canonical and live renderings from the impl blocks of types.rs. -/

/-- Mutation steps of forkchoiceUpdatedV2::to_db on the cloned message: the
id is forced to 0, and if payload attributes are present they are removed. -/
def forkchoiceUpdatedV2.canonical (m : forkchoiceUpdatedV2) : forkchoiceUpdatedV2 :=
  let fcu := { m with id := 0 }
  if fcu.params.2.isSome then { fcu with params := (fcu.params.1, none) } else fcu

/-- Method forkchoiceUpdatedV2::to_db: clone, force id to 0, drop the payload
attributes if present, serialize. -/
def forkchoiceUpdatedV2.to_db (m : forkchoiceUpdatedV2) : String :=
  serializeForkchoiceUpdatedV2 m.canonical

/-- Method forkchoiceUpdatedV1Response::to_db: clone, force id to 0,
serialize. -/
def forkchoiceUpdatedV1Response.to_db (r : forkchoiceUpdatedV1Response) : String :=
  serializeForkchoiceUpdatedV1Response { r with id := 0 }

/-- Method forkchoiceUpdatedV1Response::set_id: clone, set the id, serialize.
The original message is passed by reference in the source and only its clone
is mutated; in the embedding the argument is a value and cannot change. -/
def forkchoiceUpdatedV1Response.set_id (r : forkchoiceUpdatedV1Response) (i : Nat) : String :=
  serializeForkchoiceUpdatedV1Response { r with id := i }

/-- Method newPayloadV1Response::to_db: clone, force id to 0, serialize. -/
def newPayloadV1Response.to_db (r : newPayloadV1Response) : String :=
  serializeNewPayloadV1Response { r with id := 0 }

/-- Method newPayloadV1Response::set_id: clone, set the id, serialize. -/
def newPayloadV1Response.set_id (r : newPayloadV1Response) (i : Nat) : String :=
  serializeNewPayloadV1Response { r with id := i }

/-- Method exchangeTransitionConfigurationV1::to_db: clone, force id to 0,
serialize. -/
def exchangeTransitionConfigurationV1.to_db (m : exchangeTransitionConfigurationV1) : String :=
  serializeExchangeTransitionConfigurationV1 { m with id := 0 }

/-- Method exchangeTransitionConfigurationV1::set_id: clone, set the id,
serialize. -/
def exchangeTransitionConfigurationV1.set_id (m : exchangeTransitionConfigurationV1) (i : Nat) : String :=
  serializeExchangeTransitionConfigurationV1 { m with id := i }

/-! Method dispatch: the closed enum of recognized JSON-RPC method names. -/

/-- Enum RequestMethod, with exactly the variant spellings of the source. -/
inductive RequestMethod where
  | engine_ForkchoiceUpdatedV1
  | engine_ForkchoiceUpdatedV2
  | engine_NewPayloadV1
  | engine_NewPayloadV2
  | engine_getPayloadV1
  | engine_getPayloadV2
  | engine_getPayloadBodiesByHashV1
  | engine_getPayloadBodiesByRangeV1
  | engine_exchangeCapabilities
  | engine_exchangeTransitionConfigurationV1
deriving DecidableEq

/-- Deserialization of RequestMethod as derived by serde: the input string is
matched exactly against the variant names, in declaration order; anything
else is an unknown variant. -/
def RequestMethod.fromString (s : String) : Option RequestMethod :=
  if s = "engine_ForkchoiceUpdatedV1" then some RequestMethod.engine_ForkchoiceUpdatedV1
  else if s = "engine_ForkchoiceUpdatedV2" then some RequestMethod.engine_ForkchoiceUpdatedV2
  else if s = "engine_NewPayloadV1" then some RequestMethod.engine_NewPayloadV1
  else if s = "engine_NewPayloadV2" then some RequestMethod.engine_NewPayloadV2
  else if s = "engine_getPayloadV1" then some RequestMethod.engine_getPayloadV1
  else if s = "engine_getPayloadV2" then some RequestMethod.engine_getPayloadV2
  else if s = "engine_getPayloadBodiesByHashV1" then some RequestMethod.engine_getPayloadBodiesByHashV1
  else if s = "engine_getPayloadBodiesByRangeV1" then some RequestMethod.engine_getPayloadBodiesByRangeV1
  else if s = "engine_exchangeCapabilities" then some RequestMethod.engine_exchangeCapabilities
  else if s = "engine_exchangeTransitionConfigurationV1" then some RequestMethod.engine_exchangeTransitionConfigurationV1
  else none

/-- Method name strings the enum of the source recognizes, one per variant,
in declaration order. -/
def knownMethodNames : List String :=
  ["engine_ForkchoiceUpdatedV1", "engine_ForkchoiceUpdatedV2",
   "engine_NewPayloadV1", "engine_NewPayloadV2",
   "engine_getPayloadV1", "engine_getPayloadV2",
   "engine_getPayloadBodiesByHashV1", "engine_getPayloadBodiesByRangeV1",
   "engine_exchangeCapabilities", "engine_exchangeTransitionConfigurationV1"]

/-- Method name strings as the external interface section of the spec lists
them.  This definition follows the words of the spec, for comparison with
knownMethodNames, which follows the source. -/
def specListedMethodNames : List String :=
  ["engine_forkchoiceUpdatedV1", "engine_forkchoiceUpdatedV2",
   "engine_newPayloadV1", "engine_newPayloadV2",
   "engine_getPayloadV1", "engine_getPayloadV2",
   "engine_getPayloadBodiesByHashV1", "engine_getPayloadBodiesByRangeV1",
   "engine_exchangeCapabilities", "engine_exchangeTransitionConfigurationV1"]

/-- Error kind for an inbound method that is not in the recognized set. -/
inductive DecodeErr where
  | UnsupportedMethod
deriving DecidableEq

/-- Modelled from the spec: the dispatch step that decodes the inbound method
field is outside src, which only holds the RequestMethod enum; per the spec,
the field is matched exactly against the known set and unknown strings map to
the UnsupportedMethod variant rather than being ignored or forwarded. -/
def decode_method (s : String) : Except DecodeErr RequestMethod :=
  match RequestMethod.fromString s with
  | some m => Except.ok m
  | none => Except.error DecodeErr.UnsupportedMethod

/-! Deserialization: the behaviour of serde_json on the derived structs.
Field entries of an object are scanned for each struct field; a duplicate
known field is an error, an unknown field is ignored, a missing required
field is an error, and a field whose value has the wrong JSON type is an
error.  Option fields default to none when missing.  The embedding collects
fields by name rather than replaying the entry stream, which preserves the
accepted or rejected outcome, only the text of the chosen error message may
differ from serde. -/

/-- Number of entries of an object with the given key. -/
def countKey (fs : List (String × Json)) (k : String) : Nat :=
  (fs.filter (fun p => p.1 = k)).length

/-- First value stored under the given key, if any. -/
def findKey (fs : List (String × Json)) (k : String) : Option Json :=
  (fs.find? (fun p => p.1 = k)).map (fun p => p.2)

/-- Extraction of a required field: duplicate and missing are errors. -/
def requiredField (fs : List (String × Json)) (k : String) : Except String Json :=
  if 2 ≤ countKey fs k then Except.error ("duplicate field " ++ k)
  else match findKey fs k with
    | none => Except.error ("missing field " ++ k)
    | some j => Except.ok j

/-- Deserialization of a String field: only a JSON string is accepted. -/
def asString : Json → Except String String
  | Json.str s => Except.ok s
  | _ => Except.error "invalid type: expected a string"

/-- Extraction of a required String field. -/
def requiredStringField (fs : List (String × Json)) (k : String) : Except String String := do
  let j ← requiredField fs k
  asString j

/-- Extraction of an Option String field: missing or null is none, a string
is some, any other JSON type is an error. -/
def optionalStringField (fs : List (String × Json)) (k : String) : Except String (Option String) :=
  if 2 ≤ countKey fs k then Except.error ("duplicate field " ++ k)
  else match findKey fs k with
    | none => Except.ok none
    | some Json.null => Except.ok none
    | some (Json.str s) => Except.ok (some s)
    | some _ => Except.error "invalid type: expected a string or null"

/-- Deserialization of WithdrawalV1: four required string fields, with no
validation of their contents. -/
def deserializeWithdrawalV1 : Json → Except String WithdrawalV1
  | Json.obj fs => do
    let i ← requiredStringField fs "index"
    let v ← requiredStringField fs "validatorIndex"
    let a ← requiredStringField fs "address"
    let am ← requiredStringField fs "amount"
    Except.ok ⟨i, v, a, am⟩
  | _ => Except.error "invalid type: expected struct WithdrawalV1"

/-- Deserialization of ForkchoiceStateV1: three required string fields, with
no validation of their contents. -/
def deserializeForkchoiceStateV1 : Json → Except String ForkchoiceStateV1
  | Json.obj fs => do
    let h ← requiredStringField fs "headBlockHash"
    let s ← requiredStringField fs "safeBlockHash"
    let f ← requiredStringField fs "finalizedBlockHash"
    Except.ok ⟨h, s, f⟩
  | _ => Except.error "invalid type: expected struct ForkchoiceStateV1"

/-- Deserialization of ExecutionStatus: a string matched exactly against the
variant names. -/
def deserializeExecutionStatus : Json → Except String ExecutionStatus
  | Json.str s =>
    if s = "VALID" then Except.ok ExecutionStatus.VALID
    else if s = "INVALID" then Except.ok ExecutionStatus.INVALID
    else if s = "SYNCING" then Except.ok ExecutionStatus.SYNCING
    else if s = "ACCEPTED" then Except.ok ExecutionStatus.ACCEPTED
    else if s = "INVALID_BLOCK_HASH" then Except.ok ExecutionStatus.INVALID_BLOCK_HASH
    else Except.error ("unknown variant " ++ s)
  | _ => Except.error "invalid type: expected a string"

/-- Deserialization of payloadStatusV1: a required status and two optional
string fields, with no cross-field constraint. -/
def deserializePayloadStatusV1 : Json → Except String payloadStatusV1
  | Json.obj fs => do
    let stj ← requiredField fs "status"
    let st ← deserializeExecutionStatus stj
    let lvh ← optionalStringField fs "latestValidHash"
    let ve ← optionalStringField fs "ValidationError"
    Except.ok ⟨st, lvh, ve⟩
  | _ => Except.error "invalid type: expected struct payloadStatusV1"

/-! The legitimacy cache slot. -/

/-- Struct fcu_pair: one forkchoiceUpdated request together with its
response. -/
structure fcu_pair where
  req : forkchoiceUpdatedV2
  resp : forkchoiceUpdatedV1Response
deriving DecidableEq

/-- Content of the cache slot State.last_legitimate_fcu, an
Arc of RwLock of Option of fcu_pair in the source: either empty or holding
exactly one pair. -/
abbrev LegitimacyCache := Option fcu_pair

/-- Modelled from the spec: the replace operation on the cache slot is not in
src, which only declares the slot type; per the spec it atomically replaces
any existing content with the given pair. -/
def LegitimacyCache.replace (_c : LegitimacyCache) (p : fcu_pair) : LegitimacyCache :=
  some p

/-- Modelled from the spec: the read operation on the cache slot is not in
src; per the spec it returns the current content without modifying it, so it
is embedded as a pure observation of the state. -/
def LegitimacyCache.read (c : LegitimacyCache) : Option fcu_pair :=
  c

/-! Helper lemmas. -/

/-- Helper: the canonical form spelled out field by field. -/
theorem canonical_eq (m : forkchoiceUpdatedV2) :
    m.canonical =
      { jsonrpc := m.jsonrpc, id := 0, method := m.method, params := (m.params.1, none) } := by
  obtain ⟨j, i, me, st, attrs⟩ := m
  cases attrs <;> rfl

/-- C1: for every forkchoiceUpdatedV2 request message, to_db equals the JSON
serialization of the message with its id forced to 0 and its optional
payloadAttributes removed, all other fields unchanged. -/
theorem fcuV2_to_db_eq_canonical_serialization (m : forkchoiceUpdatedV2) :
    m.to_db = serializeForkchoiceUpdatedV2
      { jsonrpc := m.jsonrpc, id := 0, method := m.method, params := (m.params.1, none) } :=
  congrArg serializeForkchoiceUpdatedV2 (canonical_eq m)

/-- C2: two forkchoiceUpdatedV2 requests that agree on everything except the
id and the optional payloadAttributes canonicalize to the same string. -/
theorem fcuV2_to_db_ignores_id_and_payloadAttributes (m₁ m₂ : forkchoiceUpdatedV2)
    (hj : m₁.jsonrpc = m₂.jsonrpc) (hm : m₁.method = m₂.method)
    (hs : m₁.params.1 = m₂.params.1) :
    m₁.to_db = m₂.to_db := by
  show serializeForkchoiceUpdatedV2 m₁.canonical = serializeForkchoiceUpdatedV2 m₂.canonical
  rw [canonical_eq, canonical_eq, hj, hm, hs]

/-- Witness for C2: two concrete requests differing only in id and in the
presence of payload attributes render identically. -/
theorem fcuV2_to_db_ignores_id_and_payloadAttributes_witness :
    forkchoiceUpdatedV2.to_db
        ⟨"2.0", 1, "engine_forkchoiceUpdatedV2",
          (⟨"0xaa", "0xbb", "0xcc"⟩, some ⟨"0x10", "0xrr", "0xfe", none⟩)⟩ =
      forkchoiceUpdatedV2.to_db
        ⟨"2.0", 77, "engine_forkchoiceUpdatedV2", (⟨"0xaa", "0xbb", "0xcc"⟩, none)⟩ :=
  fcuV2_to_db_ignores_id_and_payloadAttributes _ _ rfl rfl rfl

/-- C3: the cache slot holds zero or one pair, and a read that follows a
replace of P, with no replace in between, returns exactly P; reads are pure
observations of the slot, so any number of interleaved reads leaves the
result unchanged. -/
theorem legitimacy_cache_single_slot_read_after_replace :
    (∀ c : LegitimacyCache, c = none ∨ ∃ p : fcu_pair, c = some p) ∧
    (∀ (c : LegitimacyCache) (p : fcu_pair), (c.replace p).read = some p) := by
  constructor
  · intro c
    cases c with
    | none => exact Or.inl rfl
    | some p => exact Or.inr ⟨p, rfl⟩
  · intro c p
    rfl

/-- C7: canonicalization is idempotent: the canonical form of a canonical
message is itself, and to_db of an already canonical message is its own
serialization, so rendering twice changes nothing. -/
theorem canonicalization_idempotent (m : forkchoiceUpdatedV2) :
    m.canonical.canonical = m.canonical ∧
    m.canonical.to_db = m.to_db ∧
    m.canonical.to_db = serializeForkchoiceUpdatedV2 m.canonical := by
  have h : m.canonical.canonical = m.canonical := by
    rw [canonical_eq m]
    rfl
  refine ⟨h, ?_, ?_⟩
  · show serializeForkchoiceUpdatedV2 m.canonical.canonical = serializeForkchoiceUpdatedV2 m.canonical
    rw [h]
  · show serializeForkchoiceUpdatedV2 m.canonical.canonical = serializeForkchoiceUpdatedV2 m.canonical
    rw [h]

/-- C4: every method string outside the known set decodes to the structured
UnsupportedMethod error, never to a recognized method. -/
theorem unknown_method_maps_to_UnsupportedMethod (s : String)
    (h : s ∉ knownMethodNames) :
    decode_method s = Except.error DecodeErr.UnsupportedMethod := by
  simp only [knownMethodNames, List.mem_cons, List.not_mem_nil, or_false, not_or] at h
  obtain ⟨h1, h2, h3, h4, h5, h6, h7, h8, h9, h10⟩ := h
  simp [decode_method, RequestMethod.fromString, h1, h2, h3, h4, h5, h6, h7, h8, h9, h10]

/-- Witness for C4: a concrete unknown method string is rejected with the
UnsupportedMethod error. -/
theorem unknown_method_maps_to_UnsupportedMethod_witness :
    decode_method "engine_getPayloadV3" = Except.error DecodeErr.UnsupportedMethod :=
  unknown_method_maps_to_UnsupportedMethod "engine_getPayloadV3" (by decide)

/-- Counterexample to C5: the spec lists engine_forkchoiceUpdatedV1 among the
recognized names, but the enum of the source spells the variant with a
capital F, so this exact string is not recognized. -/
theorem spec_method_spelling_rejected :
    "engine_forkchoiceUpdatedV1" ∈ specListedMethodNames ∧
    RequestMethod.fromString "engine_forkchoiceUpdatedV1" = none ∧
    knownMethodNames ≠ specListedMethodNames := by
  refine ⟨by decide, by decide, by decide⟩

/-- C5 amended: the recognized set is exactly ten names, but four of them are
spelled with capitalized ForkchoiceUpdated and NewPayload segments, differing
from the list in the spec; a string is recognized exactly when it is one of
the ten variant spellings of the source. -/
theorem recognized_method_names_exact (s : String) :
    (RequestMethod.fromString s).isSome ↔ s ∈ knownMethodNames := by
  unfold RequestMethod.fromString
  split_ifs with h1 h2 h3 h4 h5 h6 h7 h8 h9 h10 <;>
    simp_all [knownMethodNames]

/-- Counterexample to C6: a Withdrawal whose amount is not a numeric string
and a ForkchoiceState whose head hash is not a 32 byte hash string are both
accepted by decoding, contradicting the claim that such values are never
accepted. -/
theorem malformed_value_strings_accepted :
    deserializeWithdrawalV1
        (Json.obj [("index", Json.str "0x1"), ("validatorIndex", Json.str "0x2"),
                   ("address", Json.str "0xabc"), ("amount", Json.str "not-a-number")]) =
      Except.ok ⟨"0x1", "0x2", "0xabc", "not-a-number"⟩ ∧
    deserializeForkchoiceStateV1
        (Json.obj [("headBlockHash", Json.str "0x12"), ("safeBlockHash", Json.str "zz"),
                   ("finalizedBlockHash", Json.str "")]) =
      Except.ok ⟨"0x12", "zz", ""⟩ := by
  constructor <;> rfl

/-- C6 amended: decoding enforces only the JSON structure of WithdrawalV1 and
ForkchoiceStateV1: a field of the wrong JSON type or a missing field fails
with a structured error, but the contents of the strings are not validated,
so any string whatsoever is accepted for the numeric and hash fields. -/
theorem decode_checks_types_not_contents (i v a am hh sh fh : String) :
    deserializeWithdrawalV1
        (Json.obj [("index", Json.str i), ("validatorIndex", Json.str v),
                   ("address", Json.str a), ("amount", Json.str am)]) =
      Except.ok ⟨i, v, a, am⟩ ∧
    deserializeForkchoiceStateV1
        (Json.obj [("headBlockHash", Json.str hh), ("safeBlockHash", Json.str sh),
                   ("finalizedBlockHash", Json.str fh)]) =
      Except.ok ⟨hh, sh, fh⟩ ∧
    deserializeWithdrawalV1
        (Json.obj [("index", Json.str i), ("validatorIndex", Json.str v),
                   ("address", Json.str a), ("amount", Json.num 5)]) =
      Except.error "invalid type: expected a string" ∧
    deserializeWithdrawalV1
        (Json.obj [("index", Json.str i), ("validatorIndex", Json.str v),
                   ("address", Json.str a)]) =
      Except.error "missing field amount" := by
  refine ⟨rfl, rfl, rfl, rfl⟩

/-- Counterexample to C8: decoding accepts a payload status whose status is
SYNCING while latestValidHash is present, so the program holds such a value,
contradicting the claim that the hash is set only for VALID or INVALID. -/
theorem syncing_with_latest_valid_hash_accepted :
    deserializePayloadStatusV1
        (Json.obj [("status", Json.str "SYNCING"), ("latestValidHash", Json.str "0xdd"),
                   ("ValidationError", Json.null)]) =
      Except.ok ⟨ExecutionStatus.SYNCING, some "0xdd", none⟩ := by
  rfl

/-- C8 amended: the message model places no constraint between status and
latestValidHash: for every status, including SYNCING, ACCEPTED and
INVALID_BLOCK_HASH, a payload status carrying a latestValidHash decodes
successfully and is held as received. -/
theorem latest_valid_hash_unconstrained_by_status (s : ExecutionStatus) (h : String) :
    deserializePayloadStatusV1
        (Json.obj [("status", Json.str (statusName s)), ("latestValidHash", Json.str h),
                   ("ValidationError", Json.null)]) =
      Except.ok ⟨s, some h, none⟩ := by
  cases s <;> rfl

/-- C9: set_id renders a copy whose id is the given identifier and whose
other fields are exactly those of the original; restoring the original id
reproduces the original serialization, and the argument message, being a
value in the embedding as it is behind an immutable reference in the source,
is never mutated. -/
theorem set_id_pure_changes_only_id (r : forkchoiceUpdatedV1Response)
    (q : newPayloadV1Response) (i : Nat) :
    r.set_id i = serializeForkchoiceUpdatedV1Response
      { jsonrpc := r.jsonrpc, id := i, result := r.result, error := r.error } ∧
    r.set_id r.id = serializeForkchoiceUpdatedV1Response r ∧
    q.set_id i = serializeNewPayloadV1Response
      { jsonrpc := q.jsonrpc, id := i, result := q.result, error := q.error } ∧
    q.set_id q.id = serializeNewPayloadV1Response q :=
  ⟨rfl, rfl, rfl, rfl⟩

/-- C10: for the forkchoiceUpdated response, the newPayload response and the
exchangeTransitionConfiguration message, to_db only forces the id to 0 and
keeps every other field, so it coincides with set_id applied at 0; nothing
beyond the identifier is stripped for these messages. -/
theorem response_to_db_changes_only_id (r : forkchoiceUpdatedV1Response)
    (q : newPayloadV1Response) (e : exchangeTransitionConfigurationV1) :
    r.to_db = serializeForkchoiceUpdatedV1Response
      { jsonrpc := r.jsonrpc, id := 0, result := r.result, error := r.error } ∧
    r.to_db = r.set_id 0 ∧
    q.to_db = serializeNewPayloadV1Response
      { jsonrpc := q.jsonrpc, id := 0, result := q.result, error := q.error } ∧
    q.to_db = q.set_id 0 ∧
    e.to_db = serializeExchangeTransitionConfigurationV1
      { jsonrpc := e.jsonrpc, id := 0, method := e.method,
        params := e.params, result := e.result } ∧
    e.to_db = e.set_id 0 :=
  ⟨rfl, rfl, rfl, rfl, rfl, rfl⟩

end OpenExecution
